import Mathlib

/-!
# Verification of the InsightWire Telegram session-manager core

Shallow embedding of the command-queue actor bridge of the repository:

* `CommandProcessor` handlers (`src/insightwire/clients/command_processor.py`,
  whose handlers are textually identical to the ones embedded in
  `src/insightwire/clients/telegram_session_manager.py`, which additionally
  lacks the terms-of-service branches),
* the `TelegramSessionManager` queue loop (`_run_manager`, `_execute_command`,
  `stop`),
* the UI retry wrapper `safe_execute` (`src/tools/tg_channel.py`).

The remote provider (Telethon) is abstracted by a `ProviderEnv` record giving
the outcome of each provider call; file-system and lock effects are recorded
in an explicit effect trace.
-/

namespace InsightWire

/-! ## Python string helpers

`str.strip()`, `str.lower()` and the `in` substring test, as used by
`_handle_get_channel_data` and `safe_execute`. -/

/-- The whitespace characters stripped by Python's `str.strip()`. -/
def isPyWs (c : Char) : Bool :=
  c == ' ' || c == '\t' || c == '\n' || c == '\r' || c == '\x0b' || c == '\x0c'

/-- `str.strip()` on a character list: drop whitespace from both ends. -/
def stripL (l : List Char) : List Char :=
  ((l.dropWhile isPyWs).reverse.dropWhile isPyWs).reverse

/-- Python `str.strip()`. -/
def pyStrip (s : String) : String := ⟨stripL s.data⟩

/-- Python `str.lower()` (ASCII case folding suffices for the messages used here). -/
def pyLower (s : String) : String := ⟨s.data.map Char.toLower⟩

/-- A string is blank when all of its characters are whitespace
(so the empty string is blank). -/
def isBlank (s : String) : Bool := s.data.all isPyWs

/-- `isPre pat l`: `pat` is a prefix of `l`. -/
def isPre : List Char → List Char → Bool
  | [], _ => true
  | _ :: _, [] => false
  | a :: as, b :: bs => a == b && isPre as bs

/-- Python's `pat in l` substring test on character lists. -/
def hasSub (pat : List Char) : List Char → Bool
  | [] => isPre pat []
  | c :: t => isPre pat (c :: t) || hasSub pat t

/-- The lock-contention signature `safe_execute` looks for. -/
def lockSig : String := "database is locked"

/-- `"database is locked" in str(e).lower()` from `safe_execute`. -/
def isLockErrorMsg (msg : String) : Bool := hasSub lockSig.data (pyLower msg).data

/-! ## Data model -/

/-- The kind of a Telethon dialog entity (`isinstance(dialog.entity, Channel)`
distinguishes channels from users (private chats) and ordinary group chats). -/
inductive Entity where
  | channel
  | user
  | chat
deriving DecidableEq, Repr

/-- A Telegram message as consumed by `_handle_get_channel_data`:
`message.text` may be `None`, plus `message.date` and `message.views`. -/
structure Message where
  text : Option String
  date : Nat
  views : Nat
deriving DecidableEq, Repr

/-- A Telethon dialog: its display name, entity kind, and the messages
`get_messages(dialog, limit)` would return (in order). -/
structure Dialog where
  name : String
  entity : Entity
  messages : List Message
deriving DecidableEq, Repr

/-- One row of the DataFrame built by `_handle_get_channel_data`. -/
structure Row where
  channel : String
  date : Nat
  text : String
  views : Nat
deriving DecidableEq, Repr

/-- The dictionary produced by `TelegramClientWrapper.get_terms_of_service_update`. -/
inductive TermsUpdate where
  | empty (expires : Nat)
  | update (id : String) (text : String) (expires : Nat)
  | unknown (raw : String)
deriving DecidableEq, Repr

/-- A value placed on the result queue (Python values are dynamically typed;
`none` is Python's `None`). -/
inductive Res where
  | none
  | bool (b : Bool)
  | strList (l : List String)
  | table (rows : List Row)
  | terms (t : TermsUpdate)
deriving DecidableEq, Repr

/-- A command placed on the command queue: `(command_name, args)` pairs. -/
inductive Cmd where
  | stop
  | connect (sessionDir apiId apiHash phone : String)
  | isAuthorized
  | sendCode (phone : String)
  | signIn (phone code : String)
  | getChannels
  | getChannelData (targets : List String) (limit : Nat)
  | disconnect
  | getTermsUpdate
  | acceptTerms (tosId : String)
  | declineTerms (tosId : String)
  | unknownCmd (name : String)
deriving DecidableEq, Repr

/-- The `TelegramClientWrapper` handle owned by the processor
(`self.client`); the associated `FileLock`'s state is tracked in `ProcState`. -/
structure ClientHandle where
  sessionPath : String
  apiId : String
  apiHash : String
deriving DecidableEq, Repr

/-- State of a `CommandProcessor`:
`client` is `self.client`, `lockHeld` is `self.client.lock.is_locked` for the
lock installed by `_handle_connect` (the OS-level file-lock state),
`providerConnected` tracks whether the underlying Telethon connection is open,
`running` is `self.running`, and `loopOpen` whether `self.loop` is open. -/
structure ProcState where
  client : Option ClientHandle
  lockHeld : Bool
  providerConnected : Bool
  running : Bool
  loopOpen : Bool
deriving DecidableEq, Repr

/-- The processor right after `__init__` + `start()`:
no client, fresh event loop, `running = True`. -/
def initProc : ProcState :=
  { client := none, lockHeld := false, providerConnected := false,
    running := true, loopOpen := true }

/-- Outcomes of the provider (Telethon) calls and of the OS-level operations,
fixed for a run: each field is the result the corresponding call would
produce (`Except.error` means the call raises). -/
structure ProviderEnv where
  connectResult : Except String Bool
  disconnectResult : Except String Unit
  isAuthorizedResult : Except String Bool
  sendCodeResult : Except String Unit
  signInResult : Except String Unit
  dialogsResult : Except String (List Dialog)
  getMessagesFails : Bool
  termsResult : Except String TermsUpdate
  acceptResult : Except String Bool
  declineResult : Except String Bool
  makedirsFails : Bool
  acquireSucceeds : Bool
  wrapperInitFails : Bool

/-- Observable side effects of the handlers. -/
inductive Effect where
  | makeDirsParent (sessionPath : String)
  | lockAcquire (lockPath : String) (timeout : Nat)
  | lockRelease
  | providerConnect
  | providerDisconnect
  | loopClose
deriving DecidableEq, Repr

/-- Outcome of one handler: next processor state, effect trace, and either a
returned value or a raised exception (caught by `process_command`). -/
inductive HandlerRes where
  | value (r : Res)
  | raised (msg : String)
deriving DecidableEq, Repr

structure HOut where
  s : ProcState
  fx : List Effect
  out : HandlerRes
deriving DecidableEq, Repr

/-! ## CommandProcessor handlers

Each `_handle_*` of `command_processor.py` (the session-manager file embeds
textually identical copies of the non-ToS handlers). -/

/-- `CommandProcessor.stop`: set `running = False`; if a client exists, try to
disconnect it (errors swallowed); if a client exists and its lock is held,
release it; close the event loop. -/
def procStop (env : ProviderEnv) (s : ProcState) : ProcState × List Effect :=
  let s1 : ProcState := { s with running := false }
  let fx1 : List Effect := if s1.client.isSome then [Effect.providerDisconnect] else []
  let s2 : ProcState :=
    if s1.client.isSome then
      match env.disconnectResult with
      | .ok _ => { s1 with providerConnected := false }
      | .error _ => s1
    else s1
  let s3 : ProcState :=
    if s2.client.isSome && s2.lockHeld then { s2 with lockHeld := false } else s2
  let fx2 : List Effect :=
    if s2.client.isSome && s2.lockHeld then [Effect.lockRelease] else []
  ({ s3 with loopOpen := false }, fx1 ++ fx2 ++ [Effect.loopClose])

/-- `CommandProcessor._handle_stop`: run `self.stop()` and return `True`. -/
def handle_stop (env : ProviderEnv) (s : ProcState) : HOut :=
  let (s', fx) := procStop env s
  ⟨s', fx, .value (.bool true)⟩

/-- `CommandProcessor._handle_connect`:
`os.makedirs(os.path.dirname(session_dir), exist_ok=True)`, then build
`FileLock(f"{session_dir}.lock", timeout=30)`; inside the `try`, acquire the
lock, install a fresh `TelegramClientWrapper` as `self.client` (with the lock
attached), and run `client.connect()`, returning its value; on any exception,
release the lock when `lock.is_locked` and return `False`.  A `makedirs`
failure happens before the `try` and therefore propagates (raises). -/
def handle_connect (env : ProviderEnv) (s : ProcState)
    (sessionDir apiId apiHash phone : String) : HOut :=
  if env.makedirsFails then
    ⟨s, [.makeDirsParent sessionDir], .raised "makedirs"⟩
  else
    let lockPath := sessionDir ++ ".lock"
    if !env.acquireSucceeds then
      -- `lock.acquire()` raised Timeout; `lock.is_locked` is false, nothing released.
      ⟨s, [.makeDirsParent sessionDir], .value (.bool false)⟩
    else if env.wrapperInitFails then
      -- wrapper construction raised; `self.client` keeps its previous value,
      -- the (held) lock is released.
      ⟨s, [.makeDirsParent sessionDir, .lockAcquire lockPath 30, .lockRelease],
        .value (.bool false)⟩
    else
      let h : ClientHandle := ⟨sessionDir, apiId, apiHash⟩
      match env.connectResult with
      | .error _ =>
          -- `client.connect()` raised: the lock is released, `False` returned,
          -- but `self.client` stays assigned to the failed handle.
          ⟨{ s with client := some h, lockHeld := false },
            [.makeDirsParent sessionDir, .lockAcquire lockPath 30,
              .providerConnect, .lockRelease],
            .value (.bool false)⟩
      | .ok b =>
          -- `connect()` returned `b` (no exception): the lock stays held.
          ⟨{ s with client := some h, lockHeld := true, providerConnected := b },
            [.makeDirsParent sessionDir, .lockAcquire lockPath 30, .providerConnect],
            .value (.bool b)⟩

/-- `CommandProcessor._handle_is_authorized`. -/
def handle_is_authorized (env : ProviderEnv) (s : ProcState) : HOut :=
  match s.client with
  | none => ⟨s, [], .value (.bool false)⟩
  | some _ =>
    match env.isAuthorizedResult with
    | .ok b => ⟨s, [], .value (.bool b)⟩
    | .error _ => ⟨s, [], .value (.bool false)⟩

/-- `CommandProcessor._handle_send_code` (the wrapper returns `True` on success). -/
def handle_send_code (env : ProviderEnv) (s : ProcState) (phone : String) : HOut :=
  match s.client with
  | none => ⟨s, [], .value (.bool false)⟩
  | some _ =>
    match env.sendCodeResult with
    | .ok _ => ⟨s, [], .value (.bool true)⟩
    | .error _ => ⟨s, [], .value (.bool false)⟩

/-- `CommandProcessor._handle_sign_in` (the wrapper returns `True` on success). -/
def handle_sign_in (env : ProviderEnv) (s : ProcState) (phone code : String) : HOut :=
  match s.client with
  | none => ⟨s, [], .value (.bool false)⟩
  | some _ =>
    match env.signInResult with
    | .ok _ => ⟨s, [], .value (.bool true)⟩
    | .error _ => ⟨s, [], .value (.bool false)⟩

/-- `isinstance(dialog.entity, Channel)`. -/
def isChannelEntity (d : Dialog) : Bool :=
  match d.entity with
  | .channel => true
  | _ => false

/-- The channel-collecting loop of `_handle_get_channels`:
`for dialog in dialogs: if isinstance(dialog.entity, Channel): channels.append(dialog.name)`. -/
def collectChannelNames : List Dialog → List String
  | [] => []
  | d :: ds =>
    if isChannelEntity d then d.name :: collectChannelNames ds
    else collectChannelNames ds

/-- `CommandProcessor._handle_get_channels`.  The authorization guard runs
outside the `try`, so a raising `is_authorized` propagates; a raising
`get_dialogs` is caught and yields `[]`. -/
def handle_get_channels (env : ProviderEnv) (s : ProcState) : HOut :=
  match s.client with
  | none => ⟨s, [], .value (.strList [])⟩
  | some _ =>
    match env.isAuthorizedResult with
    | .error e => ⟨s, [], .raised e⟩
    | .ok false => ⟨s, [], .value (.strList [])⟩
    | .ok true =>
      match env.dialogsResult with
      | .error _ => ⟨s, [], .value (.strList [])⟩
      | .ok ds => ⟨s, [], .value (.strList (collectChannelNames ds))⟩

/-- The inner message loop of `_handle_get_channel_data`:
`text = message.text.strip() if message.text else ""`, skip when `text == ""`,
else append a row. -/
def rowsOfMessages (channelName : String) : List Message → List Row
  | [] => []
  | m :: ms =>
    let text : String :=
      match m.text with
      | none => ""
      | some t => pyStrip t
    if text == "" then rowsOfMessages channelName ms
    else ⟨channelName, m.date, text, m.views⟩ :: rowsOfMessages channelName ms

/-- The dialog loop of `_handle_get_channel_data`: dialogs whose name is in
`target_channels` contribute the rows of their first `limit` messages. -/
def channelDataRows (targets : List String) (limit : Nat) : List Dialog → List Row
  | [] => []
  | d :: ds =>
    if targets.contains d.name then
      rowsOfMessages d.name (d.messages.take limit) ++ channelDataRows targets limit ds
    else channelDataRows targets limit ds

/-- `CommandProcessor._handle_get_channel_data`.  Guard as in
`_handle_get_channels`; any raise inside the `try` (from `get_dialogs` or
`get_messages`) yields an empty DataFrame. -/
def handle_get_channel_data (env : ProviderEnv) (s : ProcState)
    (targets : List String) (limit : Nat) : HOut :=
  match s.client with
  | none => ⟨s, [], .value (.table [])⟩
  | some _ =>
    match env.isAuthorizedResult with
    | .error e => ⟨s, [], .raised e⟩
    | .ok false => ⟨s, [], .value (.table [])⟩
    | .ok true =>
      match env.dialogsResult with
      | .error _ => ⟨s, [], .value (.table [])⟩
      | .ok ds =>
        if env.getMessagesFails then ⟨s, [], .value (.table [])⟩
        else ⟨s, [], .value (.table (channelDataRows targets limit ds))⟩

/-- `CommandProcessor._handle_disconnect`: `True` when no client; otherwise run
`client.disconnect()`, then release the lock when held and clear the handle; a
raising disconnect is caught and `False` is returned (nothing released or
cleared, because the `except` is entered before those lines run). -/
def handle_disconnect (env : ProviderEnv) (s : ProcState) : HOut :=
  match s.client with
  | none => ⟨s, [], .value (.bool true)⟩
  | some _ =>
    match env.disconnectResult with
    | .error _ => ⟨s, [Effect.providerDisconnect], .value (.bool false)⟩
    | .ok _ =>
      let fx := Effect.providerDisconnect ::
        (if s.lockHeld then [Effect.lockRelease] else [])
      ⟨{ s with client := none, lockHeld := false, providerConnected := false },
        fx, .value (.bool true)⟩

/-- `CommandProcessor._handle_get_terms_of_service_update`. -/
def handle_get_terms_of_service_update (env : ProviderEnv) (s : ProcState) : HOut :=
  match s.client with
  | none => ⟨s, [], .value Res.none⟩
  | some _ =>
    match env.termsResult with
    | .ok t => ⟨s, [], .value (.terms t)⟩
    | .error _ => ⟨s, [], .value Res.none⟩

/-- `CommandProcessor._handle_accept_terms_of_service`. -/
def handle_accept_terms_of_service (env : ProviderEnv) (s : ProcState)
    (tosId : String) : HOut :=
  match s.client with
  | none => ⟨s, [], .value (.bool false)⟩
  | some _ =>
    match env.acceptResult with
    | .ok b => ⟨s, [], .value (.bool b)⟩
    | .error _ => ⟨s, [], .value (.bool false)⟩

/-- `CommandProcessor._handle_decline_terms_of_service`. -/
def handle_decline_terms_of_service (env : ProviderEnv) (s : ProcState)
    (tosId : String) : HOut :=
  match s.client with
  | none => ⟨s, [], .value (.bool false)⟩
  | some _ =>
    match env.declineResult with
    | .ok b => ⟨s, [], .value (.bool b)⟩
    | .error _ => ⟨s, [], .value (.bool false)⟩

/-- `CommandProcessor.process_command` of `command_processor.py`: dispatch on
the command name; an unknown command logs and returns `None`; any exception a
handler lets escape is caught and turned into `None`. -/
def process_command (env : ProviderEnv) (s : ProcState) (c : Cmd) :
    ProcState × List Effect × Res :=
  let h : HOut :=
    match c with
    | .stop => handle_stop env s
    | .connect d a hs p => handle_connect env s d a hs p
    | .isAuthorized => handle_is_authorized env s
    | .sendCode p => handle_send_code env s p
    | .signIn p cd => handle_sign_in env s p cd
    | .getChannels => handle_get_channels env s
    | .getChannelData t l => handle_get_channel_data env s t l
    | .disconnect => handle_disconnect env s
    | .getTermsUpdate => handle_get_terms_of_service_update env s
    | .acceptTerms i => handle_accept_terms_of_service env s i
    | .declineTerms i => handle_decline_terms_of_service env s i
    | .unknownCmd _ => ⟨s, [], .value Res.none⟩
  match h.out with
  | .value r => (h.s, h.fx, r)
  | .raised _ => (h.s, h.fx, Res.none)

/-- `CommandProcessor.process_command` of `telegram_session_manager.py` (the
processor actually used by `TelegramSessionManager`): it has no branches for
the three terms-of-service commands, which therefore hit the unknown-command
branch and return `None`; its other handlers are textually identical to the
ones above. -/
def tm_process_command (env : ProviderEnv) (s : ProcState) (c : Cmd) :
    ProcState × List Effect × Res :=
  match c with
  | .getTermsUpdate => (s, [], Res.none)
  | .acceptTerms _ => (s, [], Res.none)
  | .declineTerms _ => (s, [], Res.none)
  | c => process_command env s c

/-- The public methods of `TelegramSessionManager` in
`telegram_session_manager.py`. -/
def tmFacadeMethods : List String :=
  ["start", "stop", "connect", "is_authorized", "send_code_request", "sign_in",
   "get_channels", "get_channel_data", "disconnect"]

/-- Modelled from the spec: the façade surface of §6, in the method naming the
repository uses (`requestCode` = `send_code_request`, `listChannels` =
`get_channels`, `fetchChannelData` = `get_channel_data`, `getTermsUpdate` =
`get_terms_of_service_update`, `acceptTerms` = `accept_terms_of_service`,
`declineTerms` = `decline_terms_of_service`). -/
def specFacadeSurface : List String :=
  ["connect", "is_authorized", "send_code_request", "sign_in", "get_channels",
   "get_channel_data", "get_terms_of_service_update", "accept_terms_of_service",
   "decline_terms_of_service", "disconnect", "stop"]

/-! ## The TelegramSessionManager queue loop -/

/-- Is this the `stop` command? -/
def isStopCmd : Cmd → Bool
  | .stop => true
  | _ => false

/-- The result stream of `_run_manager` under the usual schedule: each dequeued
command is processed by the current processor and contributes exactly one
result, in dequeue order.  After a `stop` command the loop exits (the manager's
`running` flag was cleared by `stop()`), and the commands that are dequeued
later are handled by the fresh `CommandProcessor` installed by the next
`start()` — the queue pair itself is reused. -/
def runQueue (env : ProviderEnv) : ProcState → List Cmd → List Res
  | _, [] => []
  | s, c :: cs =>
    (process_command env s c).2.2 ::
      (if isStopCmd c then runQueue env initProc cs
       else runQueue env (process_command env s c).1 cs)

/-- A caller-side operation against the manager: `_execute_command` with some
command (used by every public method), or a call to `stop()`. -/
inductive COp where
  | exec (c : Cmd)
  | stopCall
deriving DecidableEq, Repr

/-- The commands that end up on the (single, reused) command queue, given the
manager's `running` flag: `_execute_command` always enqueues its command
(lazily starting the manager first); `stop()` enqueues a `stop` command only
when the thread is alive, and never consumes a result. -/
def opsCmds : Bool → List COp → List Cmd
  | _, [] => []
  | _, .exec c :: t => c :: opsCmds true t
  | running, .stopCall :: t =>
    if running then Cmd.stop :: opsCmds false t else opsCmds false t

/-- For each enqueued command, whether it came from an `_execute_command`
caller (who will perform one blocking `result_queue.get()`). -/
def execFlags : Bool → List COp → List Bool
  | _, [] => []
  | _, .exec _ :: t => true :: execFlags true t
  | running, .stopCall :: t =>
    if running then false :: execFlags false t else execFlags false t

/-- Number of `_execute_command` calls in a trace. -/
def countExecs : List COp → Nat
  | [] => 0
  | .exec _ :: t => countExecs t + 1
  | .stopCall :: t => countExecs t

/-- Select the entries of `rs` whose flag is `true`. -/
def selectTrue : List Bool → List Res → List Res
  | true :: bs, r :: rs => r :: selectTrue bs rs
  | false :: bs, _ :: rs => selectTrue bs rs
  | _, _ => []

/-- The results the `_execute_command` callers actually receive, in caller
order: the i-th `result_queue.get()` returns the i-th result placed on the
queue. -/
def receivedResults (env : ProviderEnv) (ops : List COp) : List Res :=
  (runQueue env initProc (opsCmds false ops)).take (countExecs ops)

/-- The result produced for each `_execute_command` caller's own command. -/
def ownResults (env : ProviderEnv) (ops : List COp) : List Res :=
  selectTrue (execFlags false ops) (runQueue env initProc (opsCmds false ops))

/-- A caller operation that is a plain `_execute_command` (the façade never
passes the `stop` command through `_execute_command`). -/
def isPlainExec : COp → Bool
  | .exec c => !isStopCmd c
  | .stopCall => false

/-- `TelegramSessionManager` state visible to `stop()`: whether the worker
thread is alive and the contents of the command queue. -/
structure MgrState where
  running : Bool
  cmdQueue : List Cmd
deriving DecidableEq, Repr

/-- `TelegramSessionManager.stop`: when the thread is alive, set
`self.running = False` **first**, then enqueue `("stop", None)` and join. -/
def mgr_stop (m : MgrState) : MgrState :=
  if m.running then { running := false, cmdQueue := m.cmdQueue ++ [Cmd.stop] }
  else m

/-- The `while self.running` loop of `_run_manager`, with the value of the
shared `running` flag observed at the i-th iteration given by `flag`:
if the flag reads `false` the loop exits immediately, returning the pending
(never processed) queue contents; otherwise the next command is dequeued and
processed, producing one result. -/
def runLoop (env : ProviderEnv) :
    ProcState → (Nat → Bool) → Nat → List Cmd → List Res × List Cmd
  | _, _, _, [] => ([], [])
  | s, flag, i, c :: cs =>
    if flag i then
      ((process_command env s c).2.2 ::
          (runLoop env (process_command env s c).1 flag (i + 1) cs).1,
        (runLoop env (process_command env s c).1 flag (i + 1) cs).2)
    else ([], c :: cs)

/-! ## The UI retry wrapper `safe_execute` (`src/tools/tg_channel.py`) -/

/-- Outcome of one invocation of the wrapped function: a return value or a
raised exception with message `msg`. -/
inductive CallOutcome (A : Type) where
  | ok (v : A)
  | err (msg : String)
deriving DecidableEq

/-- What a run of `safe_execute` did: the returned `(result, error)` pair,
how many times the function was called, and the sequence of sleep durations
(in units of the code's `1.0` second factor). -/
structure ExecOutcome (A : Type) where
  result : Option A
  error : Option String
  calls : Nat
  sleeps : List Nat
deriving DecidableEq

/-- The `while retry_count < max_retries` loop of `safe_execute`.  `fuel`
equals `maxRetries - retryCount` (the loop guard), `calls` counts invocations
of `func` so far, `sleeps` accumulates the `time.sleep(1.0 * retry_count)`
durations in reverse.  On an error whose text contains the lock signature the
retry count is bumped and, if still below `max_retries`, the loop sleeps
`retry_count` units and continues; any other error breaks out at once. -/
def safe_execute_go {A : Type} (f : Nat → CallOutcome A) (maxRetries : Nat) :
    Nat → Nat → Nat → List Nat → Option String → ExecOutcome A
  | 0, calls, _, sleeps, lastErr => ⟨none, lastErr, calls, sleeps.reverse⟩
  | fuel + 1, calls, retryCount, sleeps, _ =>
    match f calls with
    | .ok v => ⟨some v, none, calls + 1, sleeps.reverse⟩
    | .err msg =>
      if isLockErrorMsg msg then
        if retryCount + 1 < maxRetries then
          safe_execute_go f maxRetries fuel (calls + 1) (retryCount + 1)
            ((retryCount + 1) :: sleeps) (some msg)
        else ⟨none, some msg, calls + 1, sleeps.reverse⟩
      else ⟨none, some msg, calls + 1, sleeps.reverse⟩

/-- `safe_execute(func, ..., max_retries)`: run the retry loop from
`retry_count = 0` with no recorded error; `f i` is the outcome of the
(i+1)-th invocation of `func(*args, **kwargs)`. -/
def safe_execute {A : Type} (f : Nat → CallOutcome A) (maxRetries : Nat) :
    ExecOutcome A :=
  safe_execute_go f maxRetries maxRetries 0 0 [] none

/-- The delays `safe_execute` sleeps after each of `k` consecutive lock-error
attempts, starting after attempt `r + 1`: `[r+1, r+2, ..., r+k]`. -/
def delaySeq : Nat → Nat → List Nat
  | _, 0 => []
  | r, k + 1 => (r + 1) :: delaySeq (r + 1) k

/-! ## Concrete environments and states used for witnesses and counterexamples -/

/-- A benign environment: every provider call succeeds. -/
def env0 : ProviderEnv :=
  { connectResult := .ok true, disconnectResult := .ok (),
    isAuthorizedResult := .ok true, sendCodeResult := .ok (),
    signInResult := .ok (), dialogsResult := .ok [],
    getMessagesFails := false, termsResult := .ok (.empty 0),
    acceptResult := .ok true, declineResult := .ok true,
    makedirsFails := false, acquireSucceeds := true, wrapperInitFails := false }

/-- A processor state with a connected handle whose lock is held. -/
def sConn : ProcState :=
  { client := some ⟨"sessions/s123", "id", "hash"⟩, lockHeld := true,
    providerConnected := true, running := true, loopOpen := true }

/-- Environment in which the provider `disconnect` call raises. -/
def envDiscFail : ProviderEnv := { env0 with disconnectResult := .error "connection reset" }

/-- Environment in which the provider `connect` call returns `False` without raising. -/
def envConnFalse : ProviderEnv := { env0 with connectResult := .ok false }

/-- Environment in which the provider `connect` call raises. -/
def envConnRaise : ProviderEnv := { env0 with connectResult := .error "ConnectionError" }

/-! ## C2 — disconnect and the lock -/

/-- C2, counterexample.  In a state with a handle and a held lock, when the
provider `disconnect` call fails, `_handle_disconnect` returns `False` and
leaves both the lock held and the handle in place: the `except` branch is
entered before the release/clear lines run.  This refutes the claim that the
handler "releases the SessionLock and clears the handle even when the
underlying provider disconnect call fails". -/
theorem c2_counterexample :
    (handle_disconnect envDiscFail sConn).out = .value (.bool false) ∧
    (handle_disconnect envDiscFail sConn).s.lockHeld = true ∧
    (handle_disconnect envDiscFail sConn).s.client = some ⟨"sessions/s123", "id", "hash"⟩ := by
  decide

/-- C2, amended.  Handling the disconnect command returns true when no handle
exists; when the provider disconnect succeeds it releases the lock (when held)
and clears the handle and returns true; but when the provider disconnect call
fails it returns false and leaves the lock and the handle untouched. -/
theorem c2_disconnect (env : ProviderEnv) (s : ProcState) :
    (s.client = none → handle_disconnect env s = ⟨s, [], .value (.bool true)⟩) ∧
    (s.client.isSome = true → env.disconnectResult = .ok () →
      (handle_disconnect env s).s.client = none ∧
      (handle_disconnect env s).s.lockHeld = false ∧
      (handle_disconnect env s).out = .value (.bool true) ∧
      (s.lockHeld = true → Effect.lockRelease ∈ (handle_disconnect env s).fx)) ∧
    (∀ e, s.client.isSome = true → env.disconnectResult = .error e →
      handle_disconnect env s = ⟨s, [Effect.providerDisconnect], .value (.bool false)⟩) := by
  refine ⟨fun h => ?_, fun h hd => ?_, fun e h hd => ?_⟩
  · simp [handle_disconnect, h]
  · rcases hsc : s.client with _ | cl
    · rw [hsc] at h; simp at h
    · simp [handle_disconnect, hsc, hd]
  · rcases hsc : s.client with _ | cl
    · rw [hsc] at h; simp at h
    · simp [handle_disconnect, hsc, hd]

/-- C2 witness: the amended theorem applied to a connected state with a held
lock and a succeeding provider disconnect. -/
theorem c2_disconnect_witness :
    (handle_disconnect env0 sConn).s.client = none ∧
    (handle_disconnect env0 sConn).s.lockHeld = false ∧
    (handle_disconnect env0 sConn).out = .value (.bool true) ∧
    Effect.lockRelease ∈ (handle_disconnect env0 sConn).fx := by
  obtain ⟨h1, h2, h3, h4⟩ := (c2_disconnect env0 sConn).2.1 rfl rfl
  exact ⟨h1, h2, h3, h4 rfl⟩

/-! ## C8 — missing-handle sentinels -/

/-- C8.  When no client handle exists, the handlers for `is_authorized`,
`send_code`, `sign_in`, `accept_terms_of_service` and
`decline_terms_of_service` each return `False`, and
`get_terms_of_service_update` returns `None`, in every case as a returned
value (no exception escapes to the caller). -/
theorem c8_missing_handle_sentinels (env : ProviderEnv) (s : ProcState)
    (h : s.client = none) (p cde i j : String) :
    handle_is_authorized env s = ⟨s, [], .value (.bool false)⟩ ∧
    handle_send_code env s p = ⟨s, [], .value (.bool false)⟩ ∧
    handle_sign_in env s p cde = ⟨s, [], .value (.bool false)⟩ ∧
    handle_accept_terms_of_service env s i = ⟨s, [], .value (.bool false)⟩ ∧
    handle_decline_terms_of_service env s j = ⟨s, [], .value (.bool false)⟩ ∧
    handle_get_terms_of_service_update env s = ⟨s, [], .value Res.none⟩ := by
  refine ⟨?_, ?_, ?_, ?_, ?_, ?_⟩ <;>
    simp [handle_is_authorized, handle_send_code, handle_sign_in,
      handle_accept_terms_of_service, handle_decline_terms_of_service,
      handle_get_terms_of_service_update, h]

/-- C8 witness: the sentinel behaviour at the fresh processor state. -/
theorem c8_missing_handle_sentinels_witness :
    handle_is_authorized env0 initProc = ⟨initProc, [], .value (.bool false)⟩ ∧
    handle_send_code env0 initProc "+1" = ⟨initProc, [], .value (.bool false)⟩ ∧
    handle_sign_in env0 initProc "+1" "99999" = ⟨initProc, [], .value (.bool false)⟩ ∧
    handle_accept_terms_of_service env0 initProc "tid" = ⟨initProc, [], .value (.bool false)⟩ ∧
    handle_decline_terms_of_service env0 initProc "tid" = ⟨initProc, [], .value (.bool false)⟩ ∧
    handle_get_terms_of_service_update env0 initProc = ⟨initProc, [], .value Res.none⟩ :=
  c8_missing_handle_sentinels env0 initProc rfl "+1" "99999" "tid" "tid"

/-! ## C9 — the façade lacks the terms-of-service surface -/

/-- C9.  The spec's façade surface includes the three terms-of-service
operations, but `TelegramSessionManager` (the manager actually used, whose
singleton `tg_channel.py` calls) defines no such methods, and the
`CommandProcessor` embedded in `telegram_session_manager.py` has no dispatch
branch for them: those command kinds fall into the unknown-command branch and
produce `None`, whatever the processor state. -/
theorem c9_facade_missing_tos (env : ProviderEnv) (s : ProcState) (i j : String) :
    tm_process_command env s .getTermsUpdate = (s, [], Res.none) ∧
    tm_process_command env s (.acceptTerms i) = (s, [], Res.none) ∧
    tm_process_command env s (.declineTerms j) = (s, [], Res.none) ∧
    ("get_terms_of_service_update" ∈ specFacadeSurface ∧
      "get_terms_of_service_update" ∉ tmFacadeMethods) ∧
    ("accept_terms_of_service" ∈ specFacadeSurface ∧
      "accept_terms_of_service" ∉ tmFacadeMethods) ∧
    ("decline_terms_of_service" ∈ specFacadeSurface ∧
      "decline_terms_of_service" ∉ tmFacadeMethods) := by
  exact ⟨rfl, rfl, rfl, by decide, by decide, by decide⟩

/-! ## C10 — the stale handle left by a failed connect -/

/-- C10.  When the provider connect call raises after the wrapper was
constructed, `_handle_connect` returns `False` but leaves `self.client` set to
the failed handle; the subsequent handle-guarded commands therefore dispatch
against that stale handle (returning the provider's answer) instead of taking
their missing-handle branch. -/
theorem c10_stale_handle (env env2 : ProviderEnv) (s : ProcState)
    (d a hsh p e : String)
    (hm : env.makedirsFails = false) (hacq : env.acquireSucceeds = true)
    (hw : env.wrapperInitFails = false) (hc : env.connectResult = .error e) :
    (handle_connect env s d a hsh p).out = .value (.bool false) ∧
    (handle_connect env s d a hsh p).s.client = some ⟨d, a, hsh⟩ ∧
    (env2.isAuthorizedResult = .ok true →
      (handle_is_authorized env2 (handle_connect env s d a hsh p).s).out
        = .value (.bool true)) ∧
    (env2.sendCodeResult = .ok () →
      (handle_send_code env2 (handle_connect env s d a hsh p).s p).out
        = .value (.bool true)) ∧
    (env2.signInResult = .ok () →
      (handle_sign_in env2 (handle_connect env s d a hsh p).s p "0").out
        = .value (.bool true)) := by
  refine ⟨?_, ?_, fun h2 => ?_, fun h2 => ?_, fun h2 => ?_⟩
  · simp [handle_connect, hm, hacq, hw, hc]
  · simp [handle_connect, hm, hacq, hw, hc]
  · simp [handle_connect, hm, hacq, hw, hc, handle_is_authorized, h2]
  · simp [handle_connect, hm, hacq, hw, hc, handle_send_code, h2]
  · simp [handle_connect, hm, hacq, hw, hc, handle_sign_in, h2]

/-- C10 witness: a concrete failed connect followed by an `is_authorized`
dispatched against the stale handle. -/
theorem c10_stale_handle_witness :
    (handle_connect envConnRaise initProc "sessions/s9" "id" "hash" "+1").out
      = .value (.bool false) ∧
    (handle_connect envConnRaise initProc "sessions/s9" "id" "hash" "+1").s.client
      = some ⟨"sessions/s9", "id", "hash"⟩ ∧
    (handle_is_authorized env0
        (handle_connect envConnRaise initProc "sessions/s9" "id" "hash" "+1").s).out
      = .value (.bool true) := by
  obtain ⟨h1, h2, h3, _, _⟩ :=
    c10_stale_handle envConnRaise env0 initProc "sessions/s9" "id" "hash" "+1"
      "ConnectionError" rfl rfl rfl rfl
  exact ⟨h1, h2, h3 rfl⟩

/-! ## C1 — FIFO pairing of commands and results -/

/-- One result is placed on the result queue per dequeued command. -/
theorem runQueue_length (env : ProviderEnv) :
    ∀ (cmds : List Cmd) (s : ProcState), (runQueue env s cmds).length = cmds.length := by
  intro cmds
  induction cmds with
  | nil => intro s; rfl
  | cons c cs ih =>
    intro s
    simp only [runQueue, List.length_cons]
    split <;> simp [ih]

/-- In a caller trace made only of plain `_execute_command` calls, the results
each caller consumes are exactly the results produced for its own commands. -/
theorem pairing_no_stop (env : ProviderEnv) :
    ∀ (ops : List COp), ops.all isPlainExec = true →
      ∀ (b : Bool) (s : ProcState),
        selectTrue (execFlags b ops) (runQueue env s (opsCmds b ops))
          = (runQueue env s (opsCmds b ops)).take (countExecs ops) := by
  intro ops
  induction ops with
  | nil => intro _ b s; rfl
  | cons o t ih =>
    intro hall b s
    rw [List.all_cons, Bool.and_eq_true] at hall
    obtain ⟨ho, ht⟩ := hall
    cases o with
    | stopCall => simp [isPlainExec] at ho
    | exec c =>
      have hns : isStopCmd c = false := by
        simpa [isPlainExec] using ho
      show selectTrue (true :: execFlags true t)
            (runQueue env s (c :: opsCmds true t))
          = (runQueue env s (c :: opsCmds true t)).take (countExecs t + 1)
      rw [show runQueue env s (c :: opsCmds true t)
            = (process_command env s c).2.2 ::
                (if isStopCmd c then runQueue env initProc (opsCmds true t)
                 else runQueue env (process_command env s c).1 (opsCmds true t))
          from rfl, hns]
      simp only [Bool.false_eq_true, if_false, selectTrue, List.take_succ_cons]
      rw [ih ht true (process_command env s c).1]

/-- C1, amended.  Exactly one result is placed on the result queue per
dequeued command, in FIFO order; and in every caller trace consisting only of
plain `_execute_command` calls (no `stop()`), each caller receives the result
of its own command.  (Across a `stop()` the pairing breaks: see the
counterexample.) -/
theorem c1_fifo_pairing (env : ProviderEnv) (s : ProcState) (cmds : List Cmd)
    (ops : List COp) (hops : ops.all isPlainExec = true) :
    (runQueue env s cmds).length = cmds.length ∧
    receivedResults env ops = ownResults env ops := by
  constructor
  · exact runQueue_length env cmds s
  · unfold receivedResults ownResults
    rw [pairing_no_stop env ops hops false initProc]

/-- C1 witness: two plain callers, each getting its own result. -/
theorem c1_fifo_pairing_witness :
    (runQueue env0 initProc [Cmd.isAuthorized, Cmd.disconnect]).length
      = [Cmd.isAuthorized, Cmd.disconnect].length ∧
    receivedResults env0 [COp.exec Cmd.isAuthorized, COp.exec Cmd.getChannels]
      = ownResults env0 [COp.exec Cmd.isAuthorized, COp.exec Cmd.getChannels] :=
  c1_fifo_pairing env0 initProc [Cmd.isAuthorized, Cmd.disconnect]
    [COp.exec Cmd.isAuthorized, COp.exec Cmd.getChannels] (by decide)

/-- The caller trace refuting C1 as stated: one `_execute_command`, then
`stop()` (which enqueues a `stop` command but never consumes its result),
then, after the lazy restart, another `_execute_command`. -/
def opsCE : List COp := [.exec .isAuthorized, .stopCall, .exec .getChannels]

/-- C1, counterexample.  Across a `stop()`/`start()` cycle that reuses the
queue pair, the second caller's `_execute_command` receives the orphaned
result of the `stop` command (`True`) instead of the result of its own
`get_channels` command (`[]`): the pairing between callers and results is
shifted, refuting the claim "(including across stop()/start() cycles that
reuse the same queue pair)". -/
theorem c1_counterexample :
    receivedResults env0 opsCE = [Res.bool false, Res.bool true] ∧
    ownResults env0 opsCE = [Res.bool false, Res.strList []] ∧
    receivedResults env0 opsCE ≠ ownResults env0 opsCE := by
  decide

/-! ## C3 — stop() and queue draining -/

/-- C3, counterexample.  `TelegramSessionManager.stop` clears the shared
`running` flag **before** enqueuing the `stop` command.  In the reachable
schedule where the worker's next `while self.running` check happens after
`stop()` ran, the loop exits immediately: with a command enqueued before the
`stop` command still pending, the worker terminates having processed nothing
— the results list is empty and both the pending command and the `stop`
command are left on the queue.  This refutes "the worker terminates only
after processing every command enqueued before the stop command". -/
theorem c3_counterexample :
    mgr_stop ⟨true, [Cmd.isAuthorized]⟩ = ⟨false, [Cmd.isAuthorized, Cmd.stop]⟩ ∧
    runLoop env0 initProc (fun _ => (mgr_stop ⟨true, [Cmd.isAuthorized]⟩).running) 0
        (mgr_stop ⟨true, [Cmd.isAuthorized]⟩).cmdQueue
      = ([], [Cmd.isAuthorized, Cmd.stop]) := by
  decide

/-- C3, amended.  Once the manager's `running` flag reads false, the worker
loop terminates at its next check without processing any pending command
(so commands enqueued before the `stop` command — and the `stop` command
itself — may go unprocessed); worker termination does run the processor
teardown: the event loop is closed, the running flag cleared, and, when a
handle exists, a provider disconnect is attempted and the lock is released
if held. -/
theorem c3_stop_teardown (env : ProviderEnv) (s : ProcState) (q : List Cmd) (i : Nat) :
    runLoop env s (fun _ => false) i q = ([], q) ∧
    (procStop env s).1.running = false ∧
    (procStop env s).1.loopOpen = false ∧
    (s.client.isSome = true → (procStop env s).1.lockHeld = false) ∧
    (s.client.isSome = true → Effect.providerDisconnect ∈ (procStop env s).2) ∧
    (s.client.isSome = true → env.disconnectResult = .ok () →
      (procStop env s).1.providerConnected = false) := by
  constructor
  · cases q <;> simp [runLoop]
  · unfold procStop
    rcases hd : env.disconnectResult with e | u <;>
      rcases hcl : s.client with _ | cl <;>
        cases hl : s.lockHeld <;>
          simp_all

/-- C3 witness: the teardown behaviour at a connected state. -/
theorem c3_stop_teardown_witness :
    runLoop env0 initProc (fun _ => false) 0 [Cmd.getChannels]
      = ([], [Cmd.getChannels]) ∧
    (procStop env0 sConn).1.running = false ∧
    (procStop env0 sConn).1.loopOpen = false ∧
    (procStop env0 sConn).1.lockHeld = false ∧
    Effect.providerDisconnect ∈ (procStop env0 sConn).2 ∧
    (procStop env0 sConn).1.providerConnected = false := by
  obtain ⟨h1, h2, h3, h4, h5, h6⟩ := c3_stop_teardown env0 sConn [Cmd.getChannels] 0
  exact ⟨h1, h2, h3, h4 rfl, h5 rfl, h6 rfl rfl⟩

/-! ## C4 — connect: directory creation, lock acquisition order, failure paths -/

/-- Ordering check on an effect trace: every `providerConnect` effect is
preceded by an acquisition of the given lock with a 30-unit timeout. -/
def acquireBeforeConnect (lockPath : String) : Bool → List Effect → Bool
  | _, [] => true
  | seen, .providerConnect :: t => seen && acquireBeforeConnect lockPath seen t
  | seen, .lockAcquire q tmo :: t =>
    acquireBeforeConnect lockPath (seen || (q == lockPath && tmo == 30)) t
  | seen, _ :: t => acquireBeforeConnect lockPath seen t

/-- C4, counterexample.  When the provider `connect()` call returns `False`
without raising (a failed connection attempt — the spec's provider interface
is `connect() -> bool`), `_handle_connect` returns `False` to the caller but
does **not** release the session lock (and leaves the handle installed): the
release only happens in the `except` branch.  This refutes "on any failure
releases the lock (if it was acquired) and returns false". -/
theorem c4_counterexample :
    (handle_connect envConnFalse initProc "sessions/sX" "id" "hash" "+1").out
      = .value (.bool false) ∧
    (handle_connect envConnFalse initProc "sessions/sX" "id" "hash" "+1").s.lockHeld
      = true ∧
    Effect.lockRelease
      ∉ (handle_connect envConnFalse initProc "sessions/sX" "id" "hash" "+1").fx := by
  decide

/-- C4, amended.  `_handle_connect` always attempts to create the session
storage directory first; whenever the provider connect call happens, the
session file lock was acquired with a 30-unit timeout strictly before it; on
any **raised** failure (lock timeout, wrapper construction, raising connect)
it returns false, releasing the lock whenever it had been acquired; but when
the provider connect returns false without raising, it returns false with the
lock still held; and a directory-creation failure propagates as a raised
error (surfaced as `None` by the dispatcher) instead of returning false. -/
theorem c4_connect (env : ProviderEnv) (s : ProcState) (d a hsh p : String) :
    (handle_connect env s d a hsh p).fx.head? = some (.makeDirsParent d) ∧
    acquireBeforeConnect (d ++ ".lock") false (handle_connect env s d a hsh p).fx
      = true ∧
    (env.makedirsFails = true →
      (handle_connect env s d a hsh p).out = .raised "makedirs") ∧
    (env.makedirsFails = false →
      (env.acquireSucceeds = false ∨ env.wrapperInitFails = true ∨
        (∃ e, env.connectResult = .error e)) →
      (handle_connect env s d a hsh p).out = .value (.bool false) ∧
      (Effect.lockAcquire (d ++ ".lock") 30 ∈ (handle_connect env s d a hsh p).fx →
        Effect.lockRelease ∈ (handle_connect env s d a hsh p).fx)) ∧
    (∀ b, env.makedirsFails = false → env.acquireSucceeds = true →
      env.wrapperInitFails = false → env.connectResult = .ok b →
      (handle_connect env s d a hsh p).out = .value (.bool b) ∧
      (handle_connect env s d a hsh p).s.lockHeld = true ∧
      Effect.lockRelease ∉ (handle_connect env s d a hsh p).fx) := by
  cases hmd : env.makedirsFails <;>
    cases hacq : env.acquireSucceeds <;>
      cases hw : env.wrapperInitFails <;>
        rcases hcr : env.connectResult with e | b <;>
          simp_all [handle_connect, acquireBeforeConnect]

/-- C4 witness: a fully successful connect — directory attempted first, lock
acquired (timeout 30) before the provider connect, nothing released. -/
theorem c4_connect_witness :
    (handle_connect env0 initProc "sessions/sW" "id" "hash" "+1").fx.head?
      = some (.makeDirsParent "sessions/sW") ∧
    acquireBeforeConnect ("sessions/sW" ++ ".lock") false
      (handle_connect env0 initProc "sessions/sW" "id" "hash" "+1").fx = true ∧
    (handle_connect env0 initProc "sessions/sW" "id" "hash" "+1").out
      = .value (.bool true) := by
  obtain ⟨h1, h2, _, _, h5⟩ := c4_connect env0 initProc "sessions/sW" "id" "hash" "+1"
  exact ⟨h1, h2, (h5 true rfl rfl rfl rfl).1⟩

/-! ## C5 — the retry wrapper -/

/-- Generalized retry-loop invariant: starting at retry count `r` (so with
`maxRetries - r` loop iterations available and `r` calls already made along
the lock-retry path), if the next `k` calls fail with lock-signature errors
and the call after them succeeds, the loop returns the success value with no
error, having made `k + 1` further calls and slept `r+1, …, r+k` units. -/
theorem safe_execute_go_lock (A : Type) (f : Nat → CallOutcome A)
    (maxRetries : Nat) (m : Nat → String) (v : A) :
    ∀ (k r : Nat) (sleeps : List Nat) (lastErr : Option String),
      r + k < maxRetries →
      (∀ i, i < k → f (r + i) = .err (m (r + i)) ∧
        isLockErrorMsg (m (r + i)) = true) →
      f (r + k) = .ok v →
      safe_execute_go f maxRetries (maxRetries - r) r r sleeps lastErr
        = ⟨some v, none, r + k + 1, sleeps.reverse ++ delaySeq r k⟩ := by
  intro k
  induction k with
  | zero =>
    intro r sleeps lastErr hlt _ hok
    obtain ⟨fuel, hf⟩ : ∃ fuel, maxRetries - r = fuel + 1 :=
      ⟨maxRetries - r - 1, by omega⟩
    rw [hf]
    rw [show r + 0 = r from rfl] at hok
    simp [safe_execute_go, hok, delaySeq]
  | succ k ih =>
    intro r sleeps lastErr hlt herr hok
    obtain ⟨fuel, hf⟩ : ∃ fuel, maxRetries - r = fuel + 1 :=
      ⟨maxRetries - r - 1, by omega⟩
    rw [hf]
    obtain ⟨herr0, hlock0⟩ := herr 0 (by omega)
    rw [show r + 0 = r from rfl] at herr0 hlock0
    have hcheck : r + 1 < maxRetries := by omega
    have hfuel : fuel = maxRetries - (r + 1) := by omega
    rw [safe_execute_go, herr0]
    simp only [hlock0, if_true, if_pos hcheck]
    rw [hfuel]
    have hrec := ih (r + 1) ((r + 1) :: sleeps) (some (m r))
      (by omega)
      (by
        intro i hi
        have := herr (i + 1) (by omega)
        rwa [show r + (i + 1) = r + 1 + i by omega] at this)
      (by rwa [show r + 1 + k = r + (k + 1) by omega])
    rw [hrec]
    simp [delaySeq, List.append_assoc]
    omega

/-- C5.  For a function that fails with the lock-contention signature exactly
`k < max_retries` times and then succeeds, `safe_execute` returns the success
value with no error, calls the function exactly `k + 1` times, and sleeps the
linearly increasing delays `1, 2, …, k` (one unit per attempt) between
attempts; for a function whose first failure lacks the signature, the
function is called exactly once and `(None, error)` is returned with no
sleeping. -/
theorem c5_safe_execute_retry (A B : Type) (f : Nat → CallOutcome A)
    (g : Nat → CallOutcome B) (maxRetries mr2 k : Nat) (m : Nat → String)
    (v : A) (msg : String) :
    (k < maxRetries →
      (∀ i, i < k → f i = .err (m i) ∧ isLockErrorMsg (m i) = true) →
      f k = .ok v →
      safe_execute f maxRetries = ⟨some v, none, k + 1, delaySeq 0 k⟩) ∧
    (g 0 = .err msg → isLockErrorMsg msg = false → 1 ≤ mr2 →
      safe_execute g mr2 = ⟨none, some msg, 1, []⟩) := by
  constructor
  · intro hk herr hok
    have := safe_execute_go_lock A f maxRetries m v k 0 [] none
      (by omega)
      (by intro i hi; simpa using herr i hi)
      (by simpa using hok)
    rw [Nat.sub_zero] at this
    simpa [safe_execute] using this
  · intro hg hnl hmr
    obtain ⟨n, hn⟩ : ∃ n, mr2 = n + 1 := ⟨mr2 - 1, by omega⟩
    rw [safe_execute, hn]
    rw [safe_execute_go, hg]
    simp [hnl]

/-- Concrete retrying function for the C5 witness: two lock-contention
failures, then success. -/
def fLock : Nat → CallOutcome Nat :=
  fun i => if i < 2 then .err "database is locked" else .ok 42

/-- Concrete non-lock failing function for the C5 witness. -/
def gBoom : Nat → CallOutcome Nat := fun _ => .err "boom"

/-- C5 witness: `max_retries = 3`, two lock failures then success gives
`(42, None)` after 3 calls with sleeps `[1, 2]`; a non-lock failure gives
`(None, "boom")` after exactly one call. -/
theorem c5_safe_execute_retry_witness :
    safe_execute fLock 3 = ⟨some 42, none, 3, [1, 2]⟩ ∧
    safe_execute gBoom 3 = ⟨none, some "boom", 1, []⟩ := by
  obtain ⟨h1, h2⟩ := c5_safe_execute_retry Nat Nat fLock gBoom 3 3 2
    (fun _ => "database is locked") 42 "boom"
  constructor
  · exact h1 (by omega) (by decide) (by decide)
  · exact h2 rfl (by decide) (by omega)

/-! ## C6 — channel data rows -/

/-- `message.text.strip() if message.text else ""` applied to a message. -/
def msgStrippedText (m : Message) : String :=
  match m.text with
  | none => ""
  | some t => pyStrip t

/-- When a `dropWhile p` result starts with `c`, then `c` fails `p`. -/
theorem dropWhile_head?_false (p : Char → Bool) :
    ∀ (l : List Char) (c : Char), (l.dropWhile p).head? = some c → p c = false := by
  intro l
  induction l with
  | nil => intro c hc; simp at hc
  | cons a t ih =>
    intro c hc
    by_cases ha : p a = true
    · rw [List.dropWhile_cons_of_pos ha] at hc
      exact ih c hc
    · rw [List.dropWhile_cons_of_neg ha] at hc
      simp only [List.head?_cons, Option.some.injEq] at hc
      subst hc
      simpa using ha

/-- A nonempty stripped character list contains a non-whitespace character
(its last one), hence is not all-whitespace. -/
theorem stripL_not_all_ws (l : List Char) (h : stripL l ≠ []) :
    (stripL l).all isPyWs = false := by
  unfold stripL at h ⊢
  rcases hmid : (l.dropWhile isPyWs).reverse.dropWhile isPyWs with _ | ⟨x, rest⟩
  · rw [hmid] at h
    simp at h
  · have hx : isPyWs x = false := by
      apply dropWhile_head?_false isPyWs (l.dropWhile isPyWs).reverse x
      rw [hmid]
      rfl
    have hmem : x ∈ (x :: rest).reverse := by
      rw [List.mem_reverse]
      exact List.mem_cons_self x rest
    cases hall : (x :: rest).reverse.all isPyWs with
    | false => rfl
    | true =>
      rw [List.all_eq_true] at hall
      have := hall _ hmem
      rw [hx] at this
      cases this

/-- A non-empty `pyStrip` result is never blank. -/
theorem pyStrip_not_blank (t : String) (h : pyStrip t ≠ "") :
    isBlank (pyStrip t) = false := by
  have hne : stripL t.data ≠ [] := by
    intro hnil
    apply h
    show (⟨stripL t.data⟩ : String) = ""
    rw [hnil]
  show (stripL t.data).all isPyWs = false
  exact stripL_not_all_ws t.data hne

/-- Every row emitted by the message loop carries a non-blank text. -/
theorem rowsOfMessages_not_blank (n : String) :
    ∀ (ms : List Message), ∀ r ∈ rowsOfMessages n ms, isBlank r.text = false := by
  intro ms
  induction ms with
  | nil => intro r hr; simp [rowsOfMessages] at hr
  | cons m t ih =>
    intro r hr
    rcases hmt : m.text with _ | txt
    · rw [rowsOfMessages, hmt] at hr
      simpa using ih r (by simpa using hr)
    · rw [rowsOfMessages, hmt] at hr
      by_cases he : pyStrip txt == ""
      · rw [if_pos he] at hr
        exact ih r hr
      · rw [if_neg he] at hr
        rcases List.mem_cons.mp hr with hhd | htl
        · subst hhd
          exact pyStrip_not_blank txt (by simpa using he)
        · exact ih r htl

/-- Every row emitted by the dialog loop carries a non-blank text. -/
theorem channelDataRows_not_blank (targets : List String) (limit : Nat) :
    ∀ (ds : List Dialog), ∀ r ∈ channelDataRows targets limit ds,
      isBlank r.text = false := by
  intro ds
  induction ds with
  | nil => intro r hr; simp [channelDataRows] at hr
  | cons d t ih =>
    intro r hr
    rw [channelDataRows] at hr
    by_cases hin : targets.contains d.name
    · rw [if_pos hin, List.mem_append] at hr
      rcases hr with hl | hrt
      · exact rowsOfMessages_not_blank d.name _ r hl
      · exact ih r hrt
    · rw [if_neg hin] at hr
      exact ih r hr

/-- Modelled from the spec: the number of fetched messages — up to `limit`
per requested dialog — whose text is non-empty after stripping. -/
def specRowCount (targets : List String) (limit : Nat) (ds : List Dialog) : Nat :=
  (ds.map (fun d =>
    if targets.contains d.name then
      ((d.messages.take limit).filter (fun m => !(msgStrippedText m == ""))).length
    else 0)).sum

/-- One row per non-blank fetched message, per dialog. -/
theorem rowsOfMessages_length (n : String) :
    ∀ (ms : List Message),
      (rowsOfMessages n ms).length
        = (ms.filter (fun m => !(msgStrippedText m == ""))).length := by
  intro ms
  induction ms with
  | nil => rfl
  | cons m t ih =>
    rw [rowsOfMessages, List.filter_cons]
    rcases hmt : m.text with _ | txt
    · simp [msgStrippedText, hmt, ih]
    · by_cases he : pyStrip txt == ""
      · simp [msgStrippedText, hmt, he, ih]
      · simp [msgStrippedText, hmt, he, ih]

/-- One row per non-blank fetched message over the whole dialog set. -/
theorem channelDataRows_length (targets : List String) (limit : Nat) :
    ∀ (ds : List Dialog),
      (channelDataRows targets limit ds).length = specRowCount targets limit ds := by
  intro ds
  induction ds with
  | nil => rfl
  | cons d t ih =>
    rw [channelDataRows, specRowCount, List.map_cons, List.sum_cons]
    by_cases hin : targets.contains d.name
    · rw [if_pos hin, if_pos hin, List.length_append, rowsOfMessages_length, ih]
      rfl
    · rw [if_neg hin, if_neg hin, ih]
      simp [specRowCount]

/-- The two dialogs of the spec's concrete scenario. -/
def dialogA : Dialog := ⟨"A", .channel, [⟨some "hi", 0, 5⟩, ⟨some "", 0, 3⟩]⟩

def dialogB : Dialog := ⟨"B", .channel, [⟨some "yo", 0, 9⟩]⟩

/-- Environment carrying the scenario dialogs, authorized. -/
def envAB : ProviderEnv := { env0 with dialogsResult := .ok [dialogA, dialogB] }

/-- A connected, authorized processor state for the scenario. -/
def sAB : ProcState := { initProc with client := some ⟨"sessions/sAB", "id", "hash"⟩ }

/-- C6.  With a handle present, the client authorized and the provider calls
succeeding, `_handle_get_channel_data` returns the rows computed by the
dialog/message loops; every returned row's text is non-empty and not
whitespace-only; there is exactly one row per fetched message whose text is
non-empty after stripping; and on the spec's concrete scenario (dialog "A"
with messages `("hi",5), ("",3)`, dialog "B" with `("yo",9)`, request
`["A","B"]` with limit 10) exactly the rows `(A,"hi",5)` and `(B,"yo",9)` are
produced, the empty-text message being dropped. -/
theorem c6_channel_data (env : ProviderEnv) (s : ProcState)
    (targets : List String) (limit : Nat) (ds : List Dialog)
    (hc : s.client.isSome = true) (ha : env.isAuthorizedResult = .ok true)
    (hm : env.getMessagesFails = false) (hd : env.dialogsResult = .ok ds) :
    (handle_get_channel_data env s targets limit).out
      = .value (.table (channelDataRows targets limit ds)) ∧
    (∀ r ∈ channelDataRows targets limit ds, isBlank r.text = false) ∧
    (channelDataRows targets limit ds).length = specRowCount targets limit ds ∧
    (handle_get_channel_data envAB sAB ["A", "B"] 10).out
      = .value (.table [⟨"A", 0, "hi", 5⟩, ⟨"B", 0, "yo", 9⟩]) := by
  refine ⟨?_, channelDataRows_not_blank targets limit ds,
    channelDataRows_length targets limit ds, by decide⟩
  rcases hsc : s.client with _ | cl
  · rw [hsc] at hc; simp at hc
  · simp [handle_get_channel_data, hsc, ha, hd, hm]

/-- C6 witness: the theorem applied to the spec's concrete scenario. -/
theorem c6_channel_data_witness :
    (handle_get_channel_data envAB sAB ["A", "B"] 10).out
      = .value (.table (channelDataRows ["A", "B"] 10 [dialogA, dialogB])) ∧
    (channelDataRows ["A", "B"] 10 [dialogA, dialogB]).length
      = specRowCount ["A", "B"] 10 [dialogA, dialogB] := by
  obtain ⟨h1, _, h3, _⟩ :=
    c6_channel_data envAB sAB ["A", "B"] 10 [dialogA, dialogB] rfl rfl rfl rfl
  exact ⟨h1, h3⟩

/-! ## C7 — channel listing -/

/-- The append loop of `_handle_get_channels` is the filter of channel-typed
dialogs followed by taking their names. -/
theorem collectChannelNames_eq_filter :
    ∀ (ds : List Dialog),
      collectChannelNames ds = (ds.filter isChannelEntity).map Dialog.name := by
  intro ds
  induction ds with
  | nil => rfl
  | cons d t ih =>
    rw [collectChannelNames, List.filter_cons]
    by_cases hch : isChannelEntity d
    · simp [hch, ih]
    · simp [hch, ih]

/-- C7.  `_handle_get_channels` returns the empty list when no handle exists
or the client is not authorized; with a handle, authorization, and a fixed
dialog set, it returns exactly the names of the channel-typed dialogs
(excluding users/private chats and plain group chats). -/
theorem c7_get_channels (env : ProviderEnv) (s : ProcState) (ds : List Dialog) :
    (s.client = none → (handle_get_channels env s).out = .value (.strList [])) ∧
    (s.client.isSome = true → env.isAuthorizedResult = .ok false →
      (handle_get_channels env s).out = .value (.strList [])) ∧
    (s.client.isSome = true → env.isAuthorizedResult = .ok true →
      env.dialogsResult = .ok ds →
      (handle_get_channels env s).out
        = .value (.strList ((ds.filter isChannelEntity).map Dialog.name))) := by
  refine ⟨fun h => ?_, fun h ha => ?_, fun h ha hd => ?_⟩
  · simp [handle_get_channels, h]
  · rcases hsc : s.client with _ | cl
    · rw [hsc] at h; simp at h
    · simp [handle_get_channels, hsc, ha]
  · rcases hsc : s.client with _ | cl
    · rw [hsc] at h; simp at h
    · simp [handle_get_channels, hsc, ha, hd, collectChannelNames_eq_filter]

/-- Dialog set for the C7 witness: one channel, one private chat, one group,
another channel. -/
def dialogsMix : List Dialog :=
  [⟨"News", .channel, []⟩, ⟨"Alice", .user, []⟩, ⟨"Friends", .chat, []⟩,
   ⟨"Tech", .channel, []⟩]

/-- Environment carrying the mixed dialog set. -/
def envMix : ProviderEnv := { env0 with dialogsResult := .ok dialogsMix }

/-- C7 witness: only the channel names are returned, and the empty list comes
back on the fresh (handle-less) state. -/
theorem c7_get_channels_witness :
    (handle_get_channels envMix initProc).out = .value (.strList []) ∧
    (handle_get_channels envMix sAB).out = .value (.strList ["News", "Tech"]) := by
  obtain ⟨h1, _, h3⟩ := c7_get_channels envMix initProc dialogsMix
  obtain ⟨_, _, h3b⟩ := c7_get_channels envMix sAB dialogsMix
  exact ⟨h1 rfl, by rw [h3b rfl rfl rfl]; decide⟩

end InsightWire
